import Mathlib

/-!
Verification of the Launcher repository's config store (`src/launcher/config.py`)
and launch/edit actions (`src/launcher/gui.py`) against its specification.

Modelling conventions (shallow embedding):
* A parsed YAML document is a `Yaml` value.  YAML floats are not modelled
  (no configuration key of this program stores one).
* The config file on disk is an `Option Yaml`: `none` means the file does
  not exist; `some d` means it exists and `yaml.safe_load` returns `d`
  (an empty file yields `Yaml.nul`).  `yaml.dump` followed by
  `yaml.safe_load` is taken to be the identity on represented values, so
  writing a document sets the file state to `some` of that document.
* Python's `x or {}` idiom is `orEmpty`, using Python truthiness (`truthy`).
* Python operations that raise on these inputs (e.g. `.get` on a non-dict,
  `int()` of a non-numeric value) are modelled by `Option`-valued
  functions returning `none`.
-/

namespace Launcher

/-- A YAML value as produced by `yaml.safe_load` (floats omitted; mappings
are association lists with string keys, as in this program's config files). -/
inductive Yaml where
  | nul : Yaml
  | bool : Bool → Yaml
  | int : Int → Yaml
  | str : String → Yaml
  | list : List Yaml → Yaml
  | map : List (String × Yaml) → Yaml

/-- Python truthiness of a YAML value (`bool(x)`). -/
def truthy : Yaml → Bool
  | .nul => false
  | .bool b => b
  | .int n => n != 0
  | .str s => !s.isEmpty
  | .list xs => !xs.isEmpty
  | .map kvs => !kvs.isEmpty

/-- Python's `data or {}`: replace a falsy value with the empty dict. -/
def orEmpty (d : Yaml) : Yaml :=
  if truthy d then d else .map []

/-- View a YAML value as a dict; `none` when it is not a mapping (Python
code doing dict operations on it would raise or misbehave). -/
def asMap : Yaml → Option (List (String × Yaml))
  | .map kvs => some kvs
  | _ => none

/-- View a YAML value as a list; `none` otherwise. -/
def asList : Yaml → Option (List Yaml)
  | .list xs => some xs
  | _ => none

/-- Dict lookup (`data.get(k)` / `k in data` + `data[k]`); first match, as
keys of a dict produced by `yaml.safe_load` are unique. -/
def mapLookup (kvs : List (String × Yaml)) (k : String) : Option Yaml :=
  match kvs with
  | [] => none
  | (k', v) :: rest => if k' = k then some v else mapLookup rest k

/-- Dict assignment `data[k] = v`: replace the value at an existing key in
place, else append the new key at the end (Python dicts keep insertion
order). -/
def mapSet (kvs : List (String × Yaml)) (k : String) (v : Yaml) : List (String × Yaml) :=
  match kvs with
  | [] => [(k, v)]
  | (k', v') :: rest => if k' = k then (k', v) :: rest else (k', v') :: mapSet rest k v

/-- Python `str()` of a YAML value.  Exact for the scalars, the only
values this code applies `str()` to under the claims.  The rendering of
containers is abstracted to an opaque bracketed token: like Python's
`repr`-based rendering it starts with a bracket, so it is never equal to
a bare word such as a panel-position name, which is all the code ever
compares the result against. -/
def pyStr : Yaml → String
  | .nul => "None"
  | .bool true => "True"
  | .bool false => "False"
  | .int n => toString n
  | .str s => s
  | .list _ => "[...]"
  | .map _ => "\x7b...\x7d"

/-- Python `str.lower()`: per-character lowering (agrees with Python on
the ASCII strings this config code compares against). -/
def pyLower (s : String) : String := ⟨s.data.map Char.toLower⟩

/-- Python `int()` of a YAML value; `none` models a raised exception. -/
def pyInt : Yaml → Option Int
  | .int n => some n
  | .bool b => some (if b then 1 else 0)
  | .str s => s.toInt?
  | _ => none

/-- `DEFAULT_PANEL_POSITION` from config.py. -/
def DEFAULT_PANEL_POSITION : String := "top"

/-- `DEFAULT_THEME` from config.py. -/
def DEFAULT_THEME : String := "dark"

/-- `load_config` (config.py): missing file gives `[]`; a `sections` key is
returned as is; else a legacy `items` list is wrapped in a single
"Default" section; else `[]`. -/
def load_config : Option Yaml → Option Yaml
  | none => some (.list [])
  | some doc => do
    let data ← asMap (orEmpty doc)
    match mapLookup data "sections" with
    | some v => some v
    | none =>
      match mapLookup data "items" with
      | some v => some (.list [.map [("name", .str "Default"), ("items", v)]])
      | none => some (.list [])

/-- `load_theme` (config.py). -/
def load_theme : Option Yaml → Option String
  | none => some DEFAULT_THEME
  | some doc => do
    let data ← asMap (orEmpty doc)
    some (pyStr ((mapLookup data "theme").getD (.str DEFAULT_THEME)))

/-- `load_panel_geometry` (config.py). -/
def load_panel_geometry : Option Yaml → Option (Int × Int)
  | none => some (0, 0)
  | some doc => do
    let data ← asMap (orEmpty doc)
    let panel ← asMap ((mapLookup data "panel").getD (.map []))
    let x ← pyInt ((mapLookup panel "x").getD (.int 0))
    let y ← pyInt ((mapLookup panel "y").getD (.int 0))
    some (x, y)

/-- `data = {}` then `if path.exists(): data = yaml.safe_load(f) or {}`,
the shared read-modify prelude of both save functions. -/
def docMap : Option Yaml → Option (List (String × Yaml))
  | none => some []
  | some doc => asMap (orEmpty doc)

/-- `save_panel_geometry` (config.py): set `panel.x` and `panel.y`, keep
everything else, write the document back.  Result is the new file
document; `none` models a raised exception. -/
def save_panel_geometry (x y : Int) (file : Option Yaml) : Option Yaml := do
  let data ← docMap file
  let panel ← asMap ((mapLookup data "panel").getD (.map []))
  let panel2 := mapSet (mapSet panel "x" (.int x)) "y" (.int y)
  some (.map (mapSet data "panel" (.map panel2)))

/-- `load_panel_position` (config.py): lower-cased stored value if it is
one of top/bottom/left/right, else the default "top". -/
def load_panel_position : Option Yaml → Option String
  | none => some DEFAULT_PANEL_POSITION
  | some doc => do
    let data ← asMap (orEmpty doc)
    let panel ← asMap ((mapLookup data "panel").getD (.map []))
    let pos := pyLower (pyStr ((mapLookup panel "position").getD (.str DEFAULT_PANEL_POSITION)))
    some (if pos ∈ ["top", "bottom", "left", "right"] then pos else DEFAULT_PANEL_POSITION)

/-- `save_config` (config.py): re-read the file, replace the `sections`
key, write back.  Result is the new file document. -/
def save_config (sections : Yaml) (file : Option Yaml) : Option Yaml := do
  let data ← docMap file
  some (.map (mapSet data "sections" sections))

/-! ### gui.py: launching an item -/

/-- Observable effects of `LauncherWindow.launch_item`: the argument passed
to `webbrowser.open` (if called), the argument passed to
`subprocess.Popen` (if called), and whether the `QMessageBox.critical`
error dialog was shown. -/
structure LaunchResult where
  browserCall : Option Yaml
  popenCall : Option Yaml
  errorDialog : Bool

/-- Python `typ == "url"` where `typ = item.get("type")`. -/
def isUrl : Option Yaml → Bool
  | some (.str s) => s == "url"
  | _ => false

/-- `LauncherWindow.launch_item` (gui.py).  `item` is the item dict.
Environment oracles: `browserOk` is the return value of
`webbrowser.open`; `popenRaised` says whether the `subprocess.Popen` call
raised.  The single `except Exception` handler shows the error dialog in
either failure case. -/
def launch_item (item : List (String × Yaml)) (browserOk popenRaised : Bool) : LaunchResult :=
  let typ := mapLookup item "type"
  let cmd := (mapLookup item "command").getD .nul
  if truthy cmd = false then ⟨none, none, false⟩
  else if isUrl typ then ⟨some cmd, none, !browserOk⟩
  else ⟨none, some cmd, popenRaised⟩

/-! ### gui.py: section/item editing (the in-memory list edits) -/

/-- The list edit of `LauncherWindow.add_section`: append
`{"name": ..., "icon": ..., "items": []}`. -/
def add_section_edit (sections : List Yaml) (name : String) (icon : Yaml) : List Yaml :=
  sections ++ [.map [("name", .str name), ("icon", icon), ("items", .list [])]]

/-- `sections[idx].setdefault("items", []).append(item)` on one section
dict; `none` models a raised exception (non-dict section or non-list
`items` value). -/
def setdefault_items_append (sec : Yaml) (item : Yaml) : Option Yaml := do
  let kvs ← asMap sec
  match mapLookup kvs "items" with
  | some (.list xs) => some (.map (mapSet kvs "items" (.list (xs ++ [item]))))
  | some _ => none
  | none => some (.map (kvs ++ [("items", .list [item])]))

/-- The list edit of `LauncherWindow.add_item` for a chosen section index. -/
def add_item_edit (sections : List Yaml) (idx : Nat) (item : Yaml) : Option (List Yaml) := do
  let sec ← sections[idx]?
  let sec2 ← setdefault_items_append sec item
  some (sections.set idx sec2)

/-- The list edit of `LauncherWindow.remove_section`: `del sections[idx]`. -/
def remove_section_edit (sections : List Yaml) (idx : Nat) : List Yaml :=
  sections.eraseIdx idx

/-- The section dict `add_section` followed by `add_item` builds: the new
section holding exactly the added item. -/
def sectionWithItem (name : String) (icon item : Yaml) : Yaml :=
  .map [("name", .str name), ("icon", icon), ("items", .list [item])]

/-- The item of the spec's legacy-migration example:
`{name: "Calc", type: "application", command: "calc"}`. -/
def calcItem : Yaml :=
  .map [("name", .str "Calc"), ("type", .str "application"), ("command", .str "calc")]

/-- The add-section / add-item-into-it / remove-it scenario: each GUI
operation edits the in-memory list, calls `save_config`, and
`reload_items` re-reads the list with `load_config`.  The item is added
into the freshly appended section (the last index) and that same section
is then removed.  Returns the final file document. -/
def c7_scenario (file : Option Yaml) (name : String) (icon item : Yaml) : Option Yaml := do
  let s0 ← load_config file
  let l0 ← asList s0
  let l1 := add_section_edit l0 name icon
  let f1 ← save_config (.list l1) file
  let s1 ← load_config (some f1)
  let l1b ← asList s1
  let l2 ← add_item_edit l1b (l1b.length - 1) item
  let f2 ← save_config (.list l2) (some f1)
  let s2 ← load_config (some f2)
  let l2b ← asList s2
  let l3 := remove_section_edit l2b (l2b.length - 1)
  let f3 ← save_config (.list l3) (some f2)
  some f3

/-! ### Basic lemmas about the dict operations -/

theorem mapLookup_mapSet_self (kvs : List (String × Yaml)) (k : String) (v : Yaml) :
    mapLookup (mapSet kvs k v) k = some v := by
  induction kvs with
  | nil => simp [mapSet, mapLookup]
  | cons p rest ih =>
    obtain ⟨k', v'⟩ := p
    by_cases h : k' = k <;> simp [mapSet, mapLookup, h, ih]

theorem mapLookup_mapSet_ne (kvs : List (String × Yaml)) (k : String) (v : Yaml)
    (k' : String) (h : k' ≠ k) :
    mapLookup (mapSet kvs k v) k' = mapLookup kvs k' := by
  induction kvs with
  | nil => simp [mapSet, mapLookup, Ne.symm h]
  | cons p rest ih =>
    obtain ⟨k0, v0⟩ := p
    by_cases h0 : k0 = k
    · subst h0
      simp [mapSet, mapLookup, Ne.symm h]
    · by_cases h1 : k0 = k' <;> simp [mapSet, mapLookup, h0, h1, h, ih]

theorem mapSet_ne_nil (kvs : List (String × Yaml)) (k : String) (v : Yaml) :
    mapSet kvs k v ≠ [] := by
  cases kvs with
  | nil => simp [mapSet]
  | cons p rest =>
    obtain ⟨k', v'⟩ := p
    by_cases h : k' = k <;> simp [mapSet, h]

theorem truthy_map_mapSet (kvs : List (String × Yaml)) (k : String) (v : Yaml) :
    truthy (.map (mapSet kvs k v)) = true := by
  have h := mapSet_ne_nil kvs k v
  cases hm : mapSet kvs k v with
  | nil => exact absurd hm h
  | cons p rest => simp [truthy, hm]

theorem orEmpty_map_mapSet (kvs : List (String × Yaml)) (k : String) (v : Yaml) :
    orEmpty (.map (mapSet kvs k v)) = .map (mapSet kvs k v) := by
  simp [orEmpty, truthy_map_mapSet]

/-- After any `save_config`/`save_panel_geometry` style write the stored
document is a (nonempty) mapping, so re-reading it yields it unchanged. -/
theorem docMap_after_mapSet (kvs : List (String × Yaml)) (k : String) (v : Yaml) :
    docMap (some (.map (mapSet kvs k v))) = some (mapSet kvs k v) := by
  simp [docMap, orEmpty_map_mapSet, asMap]

theorem save_config_eq (f : Option Yaml) (data : List (String × Yaml)) (s : Yaml)
    (h : docMap f = some data) :
    save_config s f = some (.map (mapSet data "sections" s)) := by
  simp [save_config, h]

/-- Loading right after a save returns exactly the saved sections value. -/
theorem load_config_after_save (data : List (String × Yaml)) (s : Yaml) :
    load_config (some (.map (mapSet data "sections" s))) = some s := by
  simp [load_config, orEmpty_map_mapSet, asMap, mapLookup_mapSet_self]

/-- What `load_config` returns on a readable document. -/
theorem load_config_of_docMap (f : Option Yaml) (data : List (String × Yaml))
    (h : docMap f = some data) :
    load_config f = some (match mapLookup data "sections" with
      | some v => v
      | none => match mapLookup data "items" with
        | some v => .list [.map [("name", .str "Default"), ("items", v)]]
        | none => .list []) := by
  match f with
  | none =>
    simp only [docMap, Option.some.injEq] at h
    subst h
    simp [load_config, mapLookup]
  | some doc =>
    simp only [docMap] at h
    cases hs : mapLookup data "sections" with
    | some v => simp [load_config, h, hs]
    | none => cases hi : mapLookup data "items" <;> simp [load_config, h, hs, hi]

/-! ### Claims -/

/-- C5: when the config file does not exist, every load operation returns
its empty/default value without error: `load_config` gives `[]`,
`load_theme` the default theme, `load_panel_position` the default
position, and `load_panel_geometry` `(0, 0)`. -/
theorem c5_missing_file_defaults :
    load_config none = some (.list []) ∧
    load_theme none = some DEFAULT_THEME ∧
    load_panel_position none = some DEFAULT_PANEL_POSITION ∧
    load_panel_geometry none = some (0, 0) :=
  ⟨rfl, rfl, rfl, rfl⟩

/-- C2: a config document with a top-level `items` list and no `sections`
key loads as exactly one section named "Default" whose items are that
list in original order. -/
theorem c2_legacy_migration (doc : Yaml) (data : List (String × Yaml)) (its : List Yaml)
    (h : asMap (orEmpty doc) = some data)
    (hs : mapLookup data "sections" = none)
    (hi : mapLookup data "items" = some (.list its)) :
    load_config (some doc) =
      some (.list [.map [("name", .str "Default"), ("items", .list its)]]) := by
  simp [load_config, h, hs, hi]

/-- Witness for C2, the spec's own example: `{items: [{name: "Calc",
type: "application", command: "calc"}]}` loads as
`[{name: "Default", items: [that item]}]`. -/
theorem c2_witness :
    load_config (some (.map [("items", .list [calcItem])])) =
      some (.list [.map [("name", .str "Default"), ("items", .list [calcItem])]]) :=
  c2_legacy_migration _ _ _ rfl rfl rfl

/-- C1: for a well-formed (readable-mapping or absent) config file,
`save_config (load_config f) f` produces a file on which `load_config`
returns the very sections value the first load returned. -/
theorem c1_save_load_roundtrip (f : Option Yaml) (data : List (String × Yaml))
    (h : docMap f = some data) :
    ∃ s f2, load_config f = some s ∧ save_config s f = some f2 ∧
      load_config (some f2) = some s := by
  have hs := load_config_of_docMap f data h
  exact ⟨_, _, hs, save_config_eq f data _ h, load_config_after_save data _⟩

/-- Witness for C1 on a legacy file whose sections come from migrating a
top-level `items` list. -/
theorem c1_witness :
    ∃ s f2,
      load_config (some (.map [("items",
        .list [.map [("name", .str "Notes"), ("type", .str "application"),
          ("command", .str "xed")]])])) = some s ∧
      save_config s (some (.map [("items",
        .list [.map [("name", .str "Notes"), ("type", .str "application"),
          ("command", .str "xed")]])])) = some f2 ∧
      load_config (some f2) = some s :=
  c1_save_load_roundtrip _ _ rfl

/-- C4: `save_config` fully replaces the top-level `sections` key and
leaves every other top-level key of the existing file unchanged. -/
theorem c4_save_preserves_other_keys (f : Option Yaml) (data : List (String × Yaml))
    (h : docMap f = some data) (s : Yaml) :
    ∃ data2, save_config s f = some (.map data2) ∧
      mapLookup data2 "sections" = some s ∧
      ∀ k, k ≠ "sections" → mapLookup data2 k = mapLookup data k :=
  ⟨mapSet data "sections" s, save_config_eq f data s h,
    mapLookup_mapSet_self data "sections" s,
    fun k hk => mapLookup_mapSet_ne data "sections" s k hk⟩

/-- Witness for C4 on a file holding `theme` and `panel` keys. -/
theorem c4_witness :
    ∃ data2, save_config (.list [])
      (some (.map [("theme", .str "dark"), ("panel", .map [("x", .int 1)])])) =
        some (.map data2) ∧
      mapLookup data2 "sections" = some (.list []) ∧
      ∀ k, k ≠ "sections" →
        mapLookup data2 k =
          mapLookup [("theme", .str "dark"), ("panel", .map [("x", .int 1)])] k :=
  c4_save_preserves_other_keys
    (some (.map [("theme", .str "dark"), ("panel", .map [("x", .int 1)])]))
    [("theme", .str "dark"), ("panel", .map [("x", .int 1)])] rfl (.list [])

/-- C8: an item whose `command` is missing, `None`, or the empty string
is not launched at all: no browser call, no process spawn, no error
dialog, whatever the item's type. -/
theorem c8_blank_command_no_action (item : List (String × Yaml)) (bOk pR : Bool)
    (h : mapLookup item "command" = none ∨ mapLookup item "command" = some .nul ∨
      mapLookup item "command" = some (.str "")) :
    launch_item item bOk pR = ⟨none, none, false⟩ := by
  rcases h with h | h | h <;>
    simp [launch_item, h, truthy, show "".isEmpty = true from rfl]

/-- Witness for C8: a url-typed item with no command does nothing. -/
theorem c8_witness :
    launch_item [("type", .str "url")] true false = ⟨none, none, false⟩ :=
  c8_blank_command_no_action _ true false (Or.inl rfl)

/-- C3 counterexample: the claim says a process-spawn failure for a
non-URL item is never surfaced, but `launch_item` wraps the
`subprocess.Popen` call in the same `try/except` as the URL path, so a
raising spawn for an application-typed item does show the error
dialog. -/
theorem c3_counterexample :
    isUrl (mapLookup [("type", .str "application"), ("command", .str "badcmd")] "type")
        = false ∧
    (launch_item [("type", .str "application"), ("command", .str "badcmd")]
        true true).errorDialog = true :=
  ⟨rfl, rfl⟩

/-- C3 (amended): a url item calls the browser, any other type spawns the
command through the shell; the error dialog appears exactly when the
command is truthy and either the URL open fails or the spawn call itself
raises.  Failures of the spawned process after a successful spawn are
unobserved. -/
theorem c3_launch_dispatch_and_errors (item : List (String × Yaml)) (bOk pR : Bool) :
    ((launch_item item bOk pR).browserCall.isSome =
      (truthy ((mapLookup item "command").getD .nul) && isUrl (mapLookup item "type"))) ∧
    ((launch_item item bOk pR).popenCall.isSome =
      (truthy ((mapLookup item "command").getD .nul) && !isUrl (mapLookup item "type"))) ∧
    ((launch_item item bOk pR).errorDialog =
      (truthy ((mapLookup item "command").getD .nul) &&
        (if isUrl (mapLookup item "type") then !bOk else pR))) := by
  unfold launch_item
  cases h1 : truthy ((mapLookup item "command").getD .nul) <;>
    cases h2 : isUrl (mapLookup item "type") <;> simp [h1, h2]

/-- C6 counterexample: `panel.position: "Bottom"` is not literally one of
top/bottom/left/right, yet `load_panel_position` returns "bottom", not
the claimed fallback "top" (the code lower-cases before checking). -/
theorem c6_counterexample :
    mapLookup [("position", .str "Bottom")] "position" = some (.str "Bottom") ∧
    ("Bottom" ∉ (["top", "bottom", "left", "right"] : List String)) ∧
    load_panel_position (some (.map [("panel", .map [("position", .str "Bottom")])])) =
      some "bottom" ∧
    ("bottom" : String) ≠ DEFAULT_PANEL_POSITION :=
  ⟨rfl, by decide, rfl, by decide⟩

/-- C6 (amended): `load_panel_position` returns the default "top" whenever
`panel.position` is missing or its `str()`-lower-cased form is not one of
top/bottom/left/right; otherwise it returns that lower-cased form (an
already-lowercase recognized value comes back as-is). -/
theorem c6_panel_position_fallback (doc : Yaml) (data panel : List (String × Yaml))
    (h1 : asMap (orEmpty doc) = some data)
    (h2 : asMap ((mapLookup data "panel").getD (.map [])) = some panel) :
    (mapLookup panel "position" = none →
      load_panel_position (some doc) = some DEFAULT_PANEL_POSITION) ∧
    (∀ v, mapLookup panel "position" = some v →
      pyLower (pyStr v) ∉ (["top", "bottom", "left", "right"] : List String) →
      load_panel_position (some doc) = some DEFAULT_PANEL_POSITION) ∧
    (∀ v, mapLookup panel "position" = some v →
      pyLower (pyStr v) ∈ (["top", "bottom", "left", "right"] : List String) →
      load_panel_position (some doc) = some (pyLower (pyStr v))) := by
  refine ⟨fun hp => ?_, fun v hp hnm => ?_, fun v hp hm => ?_⟩
  · simp only [load_panel_position, h1, h2, hp, Option.bind_eq_bind,
      Option.some_bind, Option.getD_none]
    rfl
  · simp only [load_panel_position, h1, h2, hp, Option.bind_eq_bind,
      Option.some_bind, Option.getD_some]
    rw [if_neg hnm]
  · simp only [load_panel_position, h1, h2, hp, Option.bind_eq_bind,
      Option.some_bind, Option.getD_some]
    rw [if_pos hm]

/-- Witness for C6 as amended: an unrecognized position string falls back
to "top". -/
theorem c6_witness :
    load_panel_position (some (.map [("panel", .map [("position", .str "sideways")])])) =
      some DEFAULT_PANEL_POSITION :=
  (c6_panel_position_fallback (.map [("panel", .map [("position", .str "sideways")])])
    [("panel", .map [("position", .str "sideways")])] [("position", .str "sideways")]
    rfl rfl).2.1 (.str "sideways") rfl (by decide)

/-- C10: `load_panel_position` is case-insensitive: a stored string whose
lower-cased form is a recognized position is returned lower-cased rather
than falling back to the default. -/
theorem c10_position_case_insensitive (doc : Yaml) (data panel : List (String × Yaml))
    (s : String)
    (h1 : asMap (orEmpty doc) = some data)
    (h2 : asMap ((mapLookup data "panel").getD (.map [])) = some panel)
    (h3 : mapLookup panel "position" = some (.str s))
    (h4 : pyLower s ∈ (["top", "bottom", "left", "right"] : List String)) :
    load_panel_position (some doc) = some (pyLower s) := by
  simp only [load_panel_position, h1, h2, h3, Option.bind_eq_bind,
    Option.some_bind, Option.getD_some, pyStr]
  rw [if_pos h4]

/-- Witness for C10: `position: "TOP"` loads as "top". -/
theorem c10_witness :
    load_panel_position (some (.map [("panel", .map [("position", .str "TOP")])])) =
      some "top" :=
  c10_position_case_insensitive (.map [("panel", .map [("position", .str "TOP")])])
    [("panel", .map [("position", .str "TOP")])] [("position", .str "TOP")] "TOP"
    rfl rfl rfl (by decide)

/-- C9: `save_panel_geometry x y` sets exactly the `x` and `y` keys of the
`panel` map, preserving its other keys (e.g. `position`) and every other
top-level key (e.g. `theme`, `sections`). -/
theorem c9_geometry_frame (f : Option Yaml) (data panel : List (String × Yaml))
    (x y : Int)
    (h1 : docMap f = some data)
    (h2 : asMap ((mapLookup data "panel").getD (.map [])) = some panel) :
    ∃ data2 panel2,
      save_panel_geometry x y f = some (.map data2) ∧
      mapLookup data2 "panel" = some (.map panel2) ∧
      mapLookup panel2 "x" = some (.int x) ∧
      mapLookup panel2 "y" = some (.int y) ∧
      (∀ k, k ≠ "x" → k ≠ "y" → mapLookup panel2 k = mapLookup panel k) ∧
      (∀ k, k ≠ "panel" → mapLookup data2 k = mapLookup data k) := by
  refine ⟨mapSet data "panel" (.map (mapSet (mapSet panel "x" (.int x)) "y" (.int y))),
    mapSet (mapSet panel "x" (.int x)) "y" (.int y), ?_, ?_, ?_, ?_, ?_, ?_⟩
  · simp [save_panel_geometry, h1, h2]
  · exact mapLookup_mapSet_self _ _ _
  · rw [mapLookup_mapSet_ne _ _ _ _ (by decide)]
    exact mapLookup_mapSet_self _ _ _
  · exact mapLookup_mapSet_self _ _ _
  · intro k hx hy
    rw [mapLookup_mapSet_ne _ _ _ _ hy, mapLookup_mapSet_ne _ _ _ _ hx]
  · intro k hk
    exact mapLookup_mapSet_ne _ _ _ _ hk

/-- Witness for C9 on a file holding `theme` and a `panel.position`. -/
theorem c9_witness :
    ∃ data2 panel2,
      save_panel_geometry 3 4
        (some (.map [("theme", .str "dark"),
          ("panel", .map [("position", .str "left")])])) = some (.map data2) ∧
      mapLookup data2 "panel" = some (.map panel2) ∧
      mapLookup panel2 "x" = some (.int 3) ∧
      mapLookup panel2 "y" = some (.int 4) ∧
      (∀ k, k ≠ "x" → k ≠ "y" →
        mapLookup panel2 k = mapLookup [("position", .str "left")] k) ∧
      (∀ k, k ≠ "panel" →
        mapLookup data2 k = mapLookup [("theme", .str "dark"),
          ("panel", .map [("position", .str "left")])] k) :=
  c9_geometry_frame
    (some (.map [("theme", .str "dark"), ("panel", .map [("position", .str "left")])]))
    [("theme", .str "dark"), ("panel", .map [("position", .str "left")])]
    [("position", .str "left")] 3 4 rfl rfl

/-! ### List lemmas for the add/add/remove scenario -/

theorem getAt_append_singleton (l : List Yaml) (a : Yaml) :
    (l ++ [a])[l.length]? = some a := by
  induction l with
  | nil => rfl
  | cons x xs ih => simp [ih]

theorem set_append_singleton (l : List Yaml) (a b : Yaml) :
    (l ++ [a]).set l.length b = l ++ [b] := by
  induction l with
  | nil => rfl
  | cons x xs ih => simp [List.set, ih]

theorem eraseIdx_append_singleton (l : List Yaml) (a : Yaml) :
    (l ++ [a]).eraseIdx l.length = l := by
  induction l with
  | nil => rfl
  | cons x xs ih => simp [List.eraseIdx, ih]

/-- `setdefault("items", []).append(item)` on the freshly added section
dict produces that section holding exactly the item. -/
theorem setdefault_on_new_section (name : String) (icon item : Yaml) :
    setdefault_items_append (.map [("name", .str name), ("icon", icon),
      ("items", .list [])]) item = some (sectionWithItem name icon item) := rfl

/-- C7: starting from any readable config whose sections load as a list
`L`, adding a section, adding an item into it, then removing that
section (each step saving and reloading) leaves a file whose
`load_config` result is exactly `L` again: the added section — and the
item inside it — are gone. -/
theorem c7_add_add_remove (f : Option Yaml) (data : List (String × Yaml)) (L : List Yaml)
    (h : docMap f = some data) (hL : load_config f = some (.list L))
    (name : String) (icon item : Yaml) :
    ∃ f3, c7_scenario f name icon item = some f3 ∧
      load_config (some f3) = some (.list L) ∧
      (sectionWithItem name icon item ∉ L →
        ∀ L3, load_config (some f3) = some (.list L3) →
          sectionWithItem name icon item ∉ L3) := by
  have e1 : save_config (.list (add_section_edit L name icon)) f =
      some (.map (mapSet data "sections" (.list (add_section_edit L name icon)))) :=
    save_config_eq f data _ h
  have d1 := docMap_after_mapSet data "sections" (.list (add_section_edit L name icon))
  have l1 := load_config_after_save data (.list (add_section_edit L name icon))
  have e2 : save_config (.list (L ++ [sectionWithItem name icon item]))
      (some (.map (mapSet data "sections" (.list (add_section_edit L name icon))))) =
      some (.map (mapSet (mapSet data "sections" (.list (add_section_edit L name icon)))
        "sections" (.list (L ++ [sectionWithItem name icon item])))) :=
    save_config_eq _ _ _ d1
  have d2 := docMap_after_mapSet
    (mapSet data "sections" (.list (add_section_edit L name icon)))
    "sections" (.list (L ++ [sectionWithItem name icon item]))
  have l2 := load_config_after_save
    (mapSet data "sections" (.list (add_section_edit L name icon)))
    (.list (L ++ [sectionWithItem name icon item]))
  have e3 : save_config (.list L)
      (some (.map (mapSet (mapSet data "sections" (.list (add_section_edit L name icon)))
        "sections" (.list (L ++ [sectionWithItem name icon item]))))) =
      some (.map (mapSet (mapSet (mapSet data "sections"
        (.list (add_section_edit L name icon)))
        "sections" (.list (L ++ [sectionWithItem name icon item]))) "sections" (.list L))) :=
    save_config_eq _ _ _ d2
  have l3 := load_config_after_save
    (mapSet (mapSet data "sections" (.list (add_section_edit L name icon)))
      "sections" (.list (L ++ [sectionWithItem name icon item])))
    (.list L)
  have hadd : add_item_edit (add_section_edit L name icon)
      ((add_section_edit L name icon).length - 1) item =
      some (L ++ [sectionWithItem name icon item]) := by
    simp only [add_section_edit, List.length_append, List.length_cons,
      List.length_nil, Nat.add_sub_cancel, add_item_edit,
      getAt_append_singleton, Option.bind_eq_bind, Option.some_bind,
      setdefault_on_new_section, set_append_singleton]
  have herase : remove_section_edit (L ++ [sectionWithItem name icon item])
      ((L ++ [sectionWithItem name icon item]).length - 1) = L := by
    simp only [remove_section_edit, List.length_append, List.length_cons,
      List.length_nil, Nat.add_sub_cancel, eraseIdx_append_singleton]
  refine ⟨_, ?_, l3, ?_⟩
  · simp only [c7_scenario, hL, Option.bind_eq_bind, Option.some_bind, asList,
      e1, l1, hadd, e2, l2, herase, e3]
  · intro hnm L3 hL3
    rw [l3] at hL3
    injection hL3 with h4
    injection h4 with h5
    exact h5 ▸ hnm

/-- Witness for C7: on an absent config file, adding a "Tools" section,
putting a calculator item into it, and removing the section leaves a
file that loads as an empty sections list. -/
theorem c7_witness :
    ∃ f3, c7_scenario none "Tools" .nul
        (.map [("name", .str "Calculator"), ("type", .str "application"),
          ("command", .str "gnome-calculator")]) = some f3 ∧
      load_config (some f3) = some (.list []) ∧
      (sectionWithItem "Tools" .nul
          (.map [("name", .str "Calculator"), ("type", .str "application"),
            ("command", .str "gnome-calculator")]) ∉ ([] : List Yaml) →
        ∀ L3, load_config (some f3) = some (.list L3) →
          sectionWithItem "Tools" .nul
            (.map [("name", .str "Calculator"), ("type", .str "application"),
              ("command", .str "gnome-calculator")]) ∉ L3) :=
  c7_add_add_remove none [] [] rfl rfl "Tools" .nul
    (.map [("name", .str "Calculator"), ("type", .str "application"),
      ("command", .str "gnome-calculator")])

end Launcher
